import Mathlib

/-!
Verification of the auto-assign ticket distribution service (server/server.js):
a shallow embedding of the server-side logic — the time-window policy, the
retrying remote-call wrapper, the weekend status-reversion engine, the
round-robin assignment engine, the handler directory builder, and the audit
stores — together with theorems settling the specified properties.
-/

set_option maxHeartbeats 1000000
set_option maxRecDepth 4000

deriving instance DecidableEq for Except

/-- Local (America/New_York) wall-clock time as seen by the time-policy
functions: day of week (0 = Sunday .. 6 = Saturday), hour (0-23) and
minute (0-59).  The JS code obtains these via
`new Date(date.toLocaleString("en-US", {timeZone: "America/New_York"}))`;
the embedding works directly with the resulting local fields. -/
structure LocalTime where
  day : Nat
  hour : Nat
  minute : Nat
  deriving DecidableEq, Repr

/-- `isWeekendTime` (server.js:1202): Friday from 18:00, all Saturday and
Sunday, Monday before 07:00.  (`TESTING_MODE` is `false` in the source, so
the early-return branch is dead code.) -/
def isWeekendTime (t : LocalTime) : Bool :=
  if t.day = 5 ∧ 18 ≤ t.hour then true
  else if t.day = 6 then true
  else if t.day = 0 then true
  else if t.day = 1 ∧ t.hour < 7 then true
  else false

/-- `isWithinAssignmentWindow` (server.js:1228): 2:01-2:59, 3:00-3:59 and
exactly 4:00 local time. -/
def isWithinAssignmentWindow (t : LocalTime) : Bool :=
  if t.hour = 2 ∧ 1 ≤ t.minute then true
  else if t.hour = 3 then true
  else if t.hour = 4 ∧ t.minute = 0 then true
  else false

/-- `isWeekdayTime` (server.js:1242): Monday (1) through Friday (5). -/
def isWeekdayTime (t : LocalTime) : Bool :=
  if 1 ≤ t.day ∧ t.day ≤ 5 then true else false

/-- A response of the external ticketing API, as consumed by
`makeAPICallWithRetry` (server.js:592): HTTP status, the parsed
`retry-after` header when present, the rate-limit headers
(`x-ratelimit-total`, `x-ratelimit-remaining`) when both are present, and
the body. -/
structure ApiResponse where
  status : Nat
  retryAfter : Option Nat
  rateInfo : Option (Nat × Nat)
  body : String
  deriving DecidableEq, Repr

/-- Classified failure of the retry wrapper: rate-limited after exhausting
all attempts, an upstream HTTP error rethrown on the last attempt, or fuel
exhaustion (unreachable when the fuel covers the remaining attempts). -/
inductive ApiErr where
  | rateLimited : ApiErr
  | upstream (status : Nat) (body : String) : ApiErr
  | fuelOut : ApiErr
  deriving DecidableEq, Repr

/-- Result of `makeAPICallWithRetry`: the outcome, the busy-wait delays
(in milliseconds) performed along the way, and how many remote attempts
were made. -/
structure RetryResult where
  outcome : Except ApiErr ApiResponse
  waits : List Nat
  calls : Nat
  deriving DecidableEq, Repr

/-- The proactive-slowdown delay (server.js:602-614): when both rate-limit
headers are present and fewer than 50 calls remain, an extra 1s delay is
inserted after the response is received. -/
def proactiveWait (r : ApiResponse) : List Nat :=
  match r.rateInfo with
  | some (_, remaining) => if remaining < 50 then [1000] else []
  | none => []

/-- The attempt loop of `makeAPICallWithRetry` (server.js:593-650).
`oracle` gives the response the remote system returns to attempt number
`attempt` (attempts are numbered from 1).  On 429 with attempts remaining
the loop waits `retry-after` seconds (default 10) and retries; on 429 on
the last attempt it fails `rateLimited`.  On any other status >= 400 it
throws; the catch waits 2s and retries unless this was the last attempt,
in which case the error is rethrown.  Otherwise the response is returned.
The `fuel` argument only drives termination; it is instantiated with
`maxRetries` so every reachable attempt is covered. -/
def retryLoop (oracle : Nat → ApiResponse) (maxRetries : Nat) : Nat → Nat → RetryResult
  | _, 0 => ⟨.error .fuelOut, [], 0⟩
  | attempt, fuel + 1 =>
    let r := oracle attempt
    let pw := proactiveWait r
    if r.status = 429 then
      if attempt < maxRetries then
        let rest := retryLoop oracle maxRetries (attempt + 1) fuel
        ⟨rest.outcome, pw ++ [(r.retryAfter.getD 10) * 1000] ++ rest.waits, rest.calls + 1⟩
      else
        ⟨.error .rateLimited, pw, 1⟩
    else if 400 ≤ r.status then
      if attempt < maxRetries then
        let rest := retryLoop oracle maxRetries (attempt + 1) fuel
        ⟨rest.outcome, pw ++ [2000] ++ rest.waits, rest.calls + 1⟩
      else
        ⟨.error (.upstream r.status r.body), pw, 1⟩
    else
      ⟨.ok r, pw, 1⟩

/-- `makeAPICallWithRetry(templateName, context, maxRetries = 3)`
(server.js:592), with the successive responses abstracted as `oracle`. -/
def makeAPICallWithRetry (oracle : Nat → ApiResponse) (maxRetries : Nat) : RetryResult :=
  retryLoop oracle maxRetries 1 maxRetries

/-- `STATUS_MAPPINGS['Follow-up Required']` (server.js:40): the numeric
status each named previous status reverts to. -/
def statusMappingsFollowUp : String → Option Nat
  | "Waiting on Customer" => some 6
  | "Awaiting Internal Review" => some 36
  | "Pending" => some 3
  | _ => none

/-- `determinePreviousStatus` (server.js:1380): a fixed default, no
history inspection. -/
def determinePreviousStatus : String := "Waiting on Customer"

/-- Transport for direct `$request.invokeTemplate` calls: the response the
remote system returns for a given template name and attempt number. -/
def Transport : Type := String → Nat → ApiResponse

/-- Outcome of `revertTicketStatus`: its boolean result plus the ordered
list of templates it actually invoked remotely. -/
structure RevertOutcome where
  success : Bool
  callsMade : List String
  deriving DecidableEq, Repr

/-- `revertTicketStatus(ticket, previousStatus)` (server.js:1386).  Note:
both the `updateTicketStatus` call and the `addTicketNote` call use
`$request.invokeTemplate` directly — NOT `makeAPICallWithRetry` — so each
is attempted exactly once.  A status >= 400 on the update aborts with
`false`; a failing note is tolerated. -/
def revertTicketStatus (tr : Transport) (previousStatus : String) : RevertOutcome :=
  match statusMappingsFollowUp previousStatus with
  | none => ⟨false, []⟩
  | some _ =>
    let upd := tr "updateTicketStatus" 1
    if 400 ≤ upd.status then ⟨false, ["updateTicketStatus"]⟩
    else
      let _note := tr "addTicketNote" 1
      ⟨true, ["updateTicketStatus", "addTicketNote"]⟩

/-- A work item as fetched from the external system: id, subject, numeric
status, optional group id and optional current handler id. -/
structure Ticket where
  id : Nat
  subject : String
  status : Nat
  group_id : Option Nat
  responder_id : Option Nat
  deriving DecidableEq, Repr

/-- The six monitored group ids (`supportedGroups`, server.js:903, equal to
`supportedGroupIds`, server.js:1446). -/
def supportedGroups : List Nat :=
  [67000578161, 67000578164, 67000578163, 67000578162, 67000578235, 67000570681]

/-- `supportedGroupIds.includes(ticket.group_id)` — false for a missing
group id. -/
def groupIsSupported : Option Nat → Bool
  | some g => supportedGroups.contains g
  | none => false

/-- One step of the reversion loop of `handleWeekendStatusReversion`
(server.js:1454-1521), accumulating the reverted count and the reverted
(ticket, previous-status) pairs.  `transportFor` gives the transport used
for the ticket with a given id. -/
def weekendRevStep (transportFor : Nat → Transport)
    (acc : Nat × List (Ticket × String)) (t : Ticket) : Nat × List (Ticket × String) :=
  if ¬ (groupIsSupported t.group_id = true) then acc
  else
    match statusMappingsFollowUp determinePreviousStatus with
    | none => acc
    | some _ =>
      if (revertTicketStatus (transportFor t.id) determinePreviousStatus).success then
        (acc.1 + 1, acc.2 ++ [(t, determinePreviousStatus)])
      else acc

/-- `handleWeekendStatusReversion(allTickets)` (server.js:1434): keep only
tickets with status 23 ("Follow-up Required"), then only those in the six
monitored groups, then revert each in turn.  Returns the reverted count
and, in the embedding, also the list of successfully reverted tickets
(each with the previous status recorded for it). -/
def handleWeekendStatusReversion (transportFor : Nat → Transport)
    (allTickets : List Ticket) : Nat × List (Ticket × String) :=
  let tickets := allTickets.filter (fun t => t.status = 23)
  let supportedTickets := tickets.filter (fun t => groupIsSupported t.group_id)
  supportedTickets.foldl (weekendRevStep transportFor) (0, [])

/-- The reversion phase of the scheduled run (`onScheduledEventHandler`,
server.js:182-191): `handleWeekendStatusReversion` runs only when
`isWeekendTime(now)` holds; otherwise the reverted count stays 0. -/
def reversionPhase (now : LocalTime) (transportFor : Nat → Transport)
    (allTickets : List Ticket) : Nat :=
  if isWeekendTime now then (handleWeekendStatusReversion transportFor allTickets).1
  else 0

/-- `GROUP_NAMES_BY_ID` (server.js:13). -/
def groupNameById : Nat → Option String
  | 67000578161 => some "West Region"
  | 67000578164 => some "Central Southeast"
  | 67000578163 => some "Northeast Region"
  | 67000578162 => some "Central Southwest"
  | 67000578235 => some "Triage"
  | 67000570681 => some "Support Ops"
  | _ => none

/-- `GROUP_NAMES_BY_ID[group_id] || `Group ${group_id}`` as used when
recording attempts (server.js:1075). -/
def groupNameOf : Option Nat → String
  | some g => (groupNameById g).getD ("Group " ++ toString g)
  | none => "Group undefined"

/-- An agent: id, display name, availability as reported (absent when the
base payload lacks the `available` field) and the group ids resolved by the
directory builder. -/
structure Agent where
  id : Nat
  name : String
  available : Option Bool
  group_ids : List Nat
  deriving DecidableEq, Repr, Inhabited

/-- The per-ticket eligible-handler list (server.js:937): agents whose
resolved groups contain the ticket's group and whose availability flag is
exactly `true`. -/
def eligibleAgents (g : Nat) (agents : List Agent) : List Agent :=
  agents.filter (fun a => a.group_ids.contains g && a.available == some true)

/-- Outcome tag of an assignment attempt, normalized as in
`addAssignmentAttemptEntry` (server.js:1077): anything other than
`'Success'` is recorded as `'Failed'`. -/
inductive AttemptResult where
  | success : AttemptResult
  | failed : AttemptResult
  deriving DecidableEq, Repr

/-- An `AssignmentAttempt` entry (server.js:1070), with `attempted_at` as
epoch milliseconds (`none` for an unparseable timestamp, i.e. `NaN`). -/
structure AssignmentAttempt where
  ticket_id : Nat
  ticket_subject : String
  agent_name : String
  group_id : Option Nat
  group_name : String
  attempted_at : Option Int
  result : AttemptResult
  error_message : Option String
  tag_added : Option String
  deriving DecidableEq, Repr

/-- Field normalization of `addAssignmentAttemptEntry` (server.js:1065):
subject defaults to `'Unknown Subject'` (the JS `||` also maps an empty
subject there), agent name to `'Unknown'`, the error message is kept only
on failures (defaulting to `'Unknown error'`, also for an empty message). -/
def mkAttempt (ticket_id : Nat) (subject : String) (agent_name : Option String)
    (group_id : Option Nat) (now : Int) (result : AttemptResult)
    (error_message : Option String) (tag_added : Option String) : AssignmentAttempt :=
  { ticket_id := ticket_id
    ticket_subject := if subject = "" then "Unknown Subject" else subject
    agent_name := match agent_name with
      | none => "Unknown"
      | some n => if n = "" then "Unknown" else n
    group_id := group_id
    group_name := groupNameOf group_id
    attempted_at := some now
    result := result
    error_message :=
      if result = .failed then
        some (match error_message with
          | none => "Unknown error"
          | some m => if m = "" then "Unknown error" else m)
      else none
    tag_added := tag_added }

/-- A consolidated activity-log value: JS passes either a number, a string
or null in loosely-typed fields. -/
inductive JsVal where
  | vnull : JsVal
  | vnum (n : Nat) : JsVal
  | vstr (s : String) : JsVal
  deriving DecidableEq, Repr

/-- An `ActivityEntry` of the consolidated activity log (server.js:1137). -/
structure ActivityEntry where
  ticket_id : Nat
  ticket_subject : String
  ticket_status : JsVal
  assigned_to : Option String
  group_name : Option String
  assigned_at : Option Int
  status_reverted_at : Option Int
  activity_type : Option String
  overnight_tagged : Bool
  created_at : Int
  deriving DecidableEq, Repr

/-- The in-memory state threaded through `assignTicketsInRoundRobin`
(server.js:897): the per-group rotation index map `agentIndexByGroup`, the
assignment-attempt entries and activity entries emitted so far, the remote
`assignTicket` calls issued (ticket id, agent id), and the
assigned/skipped/errored counters. -/
structure EngineState where
  idx : Nat → Option Nat
  attempts : List AssignmentAttempt
  activity : List ActivityEntry
  assignedCalls : List (Nat × Nat)
  assigned : Nat
  skipped : Nat
  errors : Nat

/-- Pointwise update of the `agentIndexByGroup` map. -/
def setIdx (f : Nat → Option Nat) (g v : Nat) : Nat → Option Nat :=
  fun g' => if g' = g then some v else f g'

/-- Index resolution (server.js:959-961): an unset index, or one at or
beyond the current eligible-handler count, is re-initialized to 0. -/
def resolveIndex (cur : Option Nat) (len : Nat) : Nat :=
  match cur with
  | none => 0
  | some i => if len ≤ i then 0 else i

/-- The activity entry written on a successful assignment
(server.js:987-997), via the normalization of `addActivityEntry`
(server.js:1137-1148). -/
def mkAssignActivity (t : Ticket) (agentName : String) (g : Nat)
    (tagAdded : Bool) (now : Int) : ActivityEntry :=
  { ticket_id := t.id
    ticket_subject := if t.subject = "" then "Unknown Subject" else t.subject
    ticket_status := if t.status = 0 then .vnull else .vnum t.status
    assigned_to := if agentName = "" then none else some agentName
    group_name := some (groupNameOf (some g))
    assigned_at := some now
    status_reverted_at := none
    activity_type := some "assignment"
    overnight_tagged := tagAdded
    created_at := now }

/-- One iteration of the `for (const ticket of tickets)` loop of
`assignTicketsInRoundRobin` (server.js:905-1034).  `assignErr t.id = none`
means the remote `assignTicket` call for that ticket succeeds; `some msg`
means it throws with message `msg`.  `tagOk` is the boolean outcome of the
best-effort `addOvernightTag` call. -/
def processTicket (agents : List Agent) (assignErr : Nat → Option String)
    (tagOk : Nat → Bool) (now : Int) (s : EngineState) (t : Ticket) : EngineState :=
  -- `if (!ticketGroupId)`: JS falsiness — a missing group id and the id 0
  -- both take the no-group branch.
  if t.group_id = none ∨ t.group_id = some 0 then
    { s with
      attempts := s.attempts ++
        [mkAttempt t.id t.subject none t.group_id now .failed
          (some "Ticket has no group assigned") none]
      skipped := s.skipped + 1 }
  else
    match t.group_id with
    | none => s
    | some g =>
      if ¬ (supportedGroups.contains g = true) then
        { s with
          attempts := s.attempts ++
            [mkAttempt t.id t.subject none (some g) now .failed
              (some "Unsupported group for auto-assignment") none]
          skipped := s.skipped + 1 }
      else
        let groupAgents := eligibleAgents g agents
        if groupAgents.length = 0 then
          { s with
            attempts := s.attempts ++
              [mkAttempt t.id t.subject none (some g) now .failed
                (some "No agents available in group") none]
            skipped := s.skipped + 1 }
        else
          let agentIndex := resolveIndex (s.idx g) groupAgents.length
          let agent := groupAgents.getD agentIndex default
          let nextIdx := setIdx s.idx g ((agentIndex + 1) % groupAgents.length)
          match assignErr t.id with
          | none =>
            let tagAdded := tagOk t.id
            { s with
              idx := nextIdx
              assignedCalls := s.assignedCalls ++ [(t.id, agent.id)]
              activity := s.activity ++ [mkAssignActivity t agent.name g tagAdded now]
              attempts := s.attempts ++
                [mkAttempt t.id t.subject (some agent.name) (some g) now .success none
                  (if tagAdded then some "overnight" else none)]
              assigned := s.assigned + 1 }
          | some msg =>
            { s with
              idx := nextIdx
              assignedCalls := s.assignedCalls ++ [(t.id, agent.id)]
              attempts := s.attempts ++
                [mkAttempt t.id t.subject (some agent.name) (some g) now .failed
                  (some msg) none]
              errors := s.errors + 1 }

/-- Fresh engine state at the start of a run, with the rotation-index map
loaded by `loadAgentIndicesByGroup` (server.js:883). -/
def initEngineState (idx0 : Nat → Option Nat) : EngineState :=
  ⟨idx0, [], [], [], 0, 0, 0⟩

/-- `assignTicketsInRoundRobin(tickets, allAgents)` (server.js:897): the
loop over the input tickets.  The source returns the triple
`{assigned, skipped, errors}`; the embedding returns the whole final
state, of which those counters are fields. -/
def assignTicketsInRoundRobin (tickets : List Ticket) (agents : List Agent)
    (assignErr : Nat → Option String) (tagOk : Nat → Bool) (now : Int)
    (idx0 : Nat → Option Nat) : EngineState :=
  tickets.foldl (processTicket agents assignErr tagOk now) (initEngineState idx0)

/-- `purgeOldAssignmentAttempts` (server.js:1096): keep only attempts whose
`attempted_at` parses and is at or after `now` minus the 31-day retention
window (in milliseconds). -/
def purgeOldAssignmentAttempts (now : Int) (attempts : List AssignmentAttempt) :
    List AssignmentAttempt :=
  attempts.filter (fun a =>
    match a.attempted_at with
    | none => false
    | some t => now - 31 * 24 * 60 * 60 * 1000 ≤ t)

/-- The append-and-truncate step of `addActivityEntry` (server.js:1150-1155):
push the entry, then drop the oldest entries beyond the 10,000 cap. -/
def addActivityEntry (entries : List ActivityEntry) (e : ActivityEntry) :
    List ActivityEntry :=
  let l := entries ++ [e]
  if 10000 < l.length then l.drop (l.length - 10000) else l

/-- A free-form in-memory log entry (server.js:87). -/
structure LogEntry where
  timestamp : String
  type : String
  message : String
  deriving DecidableEq, Repr

/-- The response shape of `clearLogs` (server.js:385). -/
structure ClearLogsResult where
  success : Bool
  message : String
  logs : List LogEntry
  deriving DecidableEq, Repr

/-- The entry `clearLogs` pushes after clearing (server.js:376-382). -/
def clearLogsEntry (nowIso : String) : LogEntry :=
  ⟨nowIso, "info", "Logs cleared by user"⟩

/-- `clearLogs()` (server.js:367): resets `inMemoryLogs` to empty, pushes a
single informational entry, and returns success with that entry as the
logs payload.  The prior in-memory log state is discarded unconditionally. -/
def clearLogs (_prior : List LogEntry) (nowIso : String) :
    List LogEntry × ClearLogsResult :=
  let e := clearLogsEntry nowIso
  ([e], ⟨true, "Logs cleared successfully", [e]⟩)

/-- A monitored group as fetched from the external system (server.js:820):
id and member agent ids. -/
structure FDGroup where
  id : Nat
  agent_ids : List Nat
  deriving DecidableEq, Repr

/-- Transport for `getActiveAgents`: the paginated agent fetch (by page
number, `.error` when the retry-wrapped call ultimately fails), the six
monitored-group fetches (indexed 0-5 in the fetch order of
server.js:812-817), and the best-effort per-agent availability detail. -/
structure DirectoryTransport where
  agentPages : Nat → Except String (List Agent)
  groupFetch : Nat → Except String FDGroup
  agentDetail : Nat → Except String Bool

/-- The agent pagination loop of `getActiveAgents` (server.js:779-809):
keep fetching pages while a full page (>= 30 agents) comes back; an empty
page stops; a page-fetch error is caught, logged, and merely stops the
loop (`hasMore = false`), silently keeping only the agents accumulated so
far.  `fuel` bounds the otherwise-unbounded `while` loop. -/
def fetchAgentPages (pages : Nat → Except String (List Agent)) : Nat → Nat → List Agent
  | 0, _ => []
  | fuel + 1, page =>
    match pages page with
    | .error _ => []
    | .ok pa =>
      if pa.length = 0 then []
      else if 30 ≤ pa.length then pa ++ fetchAgentPages pages fuel (page + 1)
      else pa

/-- The agent-to-groups inversion (server.js:829-842): the ids of the
monitored groups whose member list contains the agent, in fetch order. -/
def buildAgentGroupMap (groups : List FDGroup) (agentId : Nat) : List Nat :=
  (groups.filter (fun g => g.agent_ids.contains agentId)).map (fun g => g.id)

/-- The enrichment loop body (server.js:848-867): attach the resolved
group ids; when availability is absent from the base payload, best-effort
fetch the agent detail, leaving availability as-is if that fails. -/
def enrichAgent (detail : Nat → Except String Bool) (gmap : Nat → List Nat)
    (a : Agent) : Agent :=
  let a1 := { a with group_ids := gmap a.id }
  match a1.available with
  | some _ => a1
  | none =>
    match detail a.id with
    | .ok b => { a1 with available := some b }
    | .error _ => a1

/-- `getActiveAgents()` (server.js:773): paginate the agents (page errors
swallowed), then fetch the six monitored groups (these calls are NOT
wrapped in a try/catch, so a failure propagates as an error), then attach
group memberships and availability to every agent. -/
def getActiveAgents (tr : DirectoryTransport) (fuel : Nat) :
    Except String (List Agent) := do
  let allAgents := fetchAgentPages tr.agentPages fuel 1
  let g0 ← tr.groupFetch 0
  let g1 ← tr.groupFetch 1
  let g2 ← tr.groupFetch 2
  let g3 ← tr.groupFetch 3
  let g4 ← tr.groupFetch 4
  let g5 ← tr.groupFetch 5
  let groups := [g0, g1, g2, g3, g4, g5]
  return allAgents.map (enrichAgent tr.agentDetail (buildAgentGroupMap groups))

/-- The sequence of remote `assignTicket` calls a run of all-successful
assignments issues for tickets of one group: the `j`-th ticket goes to the
eligible handler at the rotating position, starting at `i` and stepping by
one modulo `k`. -/
def rrCalls (eligible : List Agent) (k : Nat) : Nat → List Ticket → List (Nat × Nat)
  | _, [] => []
  | i, t :: ts => (t.id, (eligible.getD i default).id) :: rrCalls eligible k ((i + 1) % k) ts

/-- Witness fixture: three agents of the Triage group, two of them
available. -/
def rrDemoAgents : List Agent :=
  [⟨1, "Alice", some true, [67000578235]⟩,
   ⟨2, "Bob", some true, [67000578235]⟩,
   ⟨3, "Carol", some false, [67000578235]⟩]

/-- Witness fixture: two assignment-eligible Triage tickets. -/
def rrDemoTickets : List Ticket :=
  [⟨10, "t1", 2, some 67000578235, none⟩,
   ⟨11, "t2", 29, some 67000578235, none⟩]

/-- Witness fixture: rotation state with the Triage group at index 1. -/
def rrDemoIdx0 : Nat → Option Nat :=
  fun g => if g = 67000578235 then some 1 else none

/-- Counterexample fixture: the paginated agent fetch returns a full page
of 30 agents and then fails on page 2. -/
def c7Pages : Nat → Except String (List Agent) :=
  fun p =>
    if p = 1 then .ok ((List.range 30).map (fun n => ⟨n + 1, "A", some true, []⟩))
    else .error "network failure"

/-- Counterexample fixture: a directory transport whose agent pagination
fails on page 2 while all six group fetches succeed. -/
def c7Tr : DirectoryTransport :=
  { agentPages := c7Pages
    groupFetch := fun j => .ok ⟨67000578161 + j, []⟩
    agentDetail := fun _ => .ok true }

instance : Inhabited Ticket := ⟨⟨0, "", 0, none, none⟩⟩

lemma rrCalls_length (eligible : List Agent) (k : Nat) :
    ∀ (ts : List Ticket) (i : Nat), (rrCalls eligible k i ts).length = ts.length := by
  intro ts
  induction ts with
  | nil => intro i; rfl
  | cons t ts ih => intro i; simp [rrCalls, ih]

lemma rrCalls_getD (eligible : List Agent) (k : Nat) (hk : 0 < k) :
    ∀ (ts : List Ticket) (i j : Nat), i < k → j < ts.length →
      (rrCalls eligible k i ts).getD j (0, 0) =
        ((ts.getD j default).id, (eligible.getD ((i + j) % k) default).id) := by
  intro ts
  induction ts with
  | nil => intro i j _ hj; simp at hj
  | cons t ts ih =>
    intro i j hi hj
    cases j with
    | zero =>
      simp [rrCalls, Nat.mod_eq_of_lt hi]
    | succ j =>
      have hj' : j < ts.length := by simpa using hj
      have hstep : ((i + 1) % k + j) % k = (i + (j + 1)) % k := by
        rw [Nat.mod_add_mod]
        congr 1
        omega
      simp only [rrCalls, List.getD_cons_succ]
      rw [ih ((i + 1) % k) j (Nat.mod_lt _ hk) hj', hstep]

lemma processTicket_success (agents : List Agent) (assignErr : Nat → Option String)
    (tagOk : Nat → Bool) (now : Int) (s : EngineState) (t : Ticket) (g : Nat)
    (hg : t.group_id = some g) (hg0 : g ≠ 0) (hsup : g ∈ supportedGroups)
    (hk : 0 < (eligibleAgents g agents).length) (hsucc : assignErr t.id = none) :
    processTicket agents assignErr tagOk now s t =
      { s with
        idx := setIdx s.idx g
          ((resolveIndex (s.idx g) (eligibleAgents g agents).length + 1) %
            (eligibleAgents g agents).length)
        assignedCalls := s.assignedCalls ++
          [(t.id, ((eligibleAgents g agents).getD
              (resolveIndex (s.idx g) (eligibleAgents g agents).length) default).id)]
        activity := s.activity ++
          [mkAssignActivity t
            ((eligibleAgents g agents).getD
              (resolveIndex (s.idx g) (eligibleAgents g agents).length) default).name g
            (tagOk t.id) now]
        attempts := s.attempts ++
          [mkAttempt t.id t.subject
            (some ((eligibleAgents g agents).getD
              (resolveIndex (s.idx g) (eligibleAgents g agents).length) default).name)
            (some g) now .success none
            (if tagOk t.id then some "overnight" else none)]
        assigned := s.assigned + 1 } := by
  have hcont : supportedGroups.contains g = true := List.elem_iff.mpr hsup
  have hne : ¬ ((eligibleAgents g agents).length = 0) := by omega
  simp only [processTicket, hg, hsucc, hcont]
  rw [if_neg (by simp [hg0]), if_neg (by simp), if_neg hne]

lemma runRoundRobin_all_success (agents : List Agent) (tagOk : Nat → Bool) (now : Int)
    (g : Nat) (hg0 : g ≠ 0) (hsup : g ∈ supportedGroups)
    (hk : 0 < (eligibleAgents g agents).length) :
    ∀ (ts : List Ticket) (assignErr : Nat → Option String) (s : EngineState) (i : Nat),
      (∀ t ∈ ts, t.group_id = some g) → (∀ t ∈ ts, assignErr t.id = none) →
      s.idx g = some i → i < (eligibleAgents g agents).length →
      (ts.foldl (processTicket agents assignErr tagOk now) s).idx g =
          some ((i + ts.length) % (eligibleAgents g agents).length) ∧
      (ts.foldl (processTicket agents assignErr tagOk now) s).assignedCalls =
          s.assignedCalls ++
            rrCalls (eligibleAgents g agents) (eligibleAgents g agents).length i ts ∧
      (ts.foldl (processTicket agents assignErr tagOk now) s).assigned =
          s.assigned + ts.length ∧
      (ts.foldl (processTicket agents assignErr tagOk now) s).skipped = s.skipped ∧
      (ts.foldl (processTicket agents assignErr tagOk now) s).errors = s.errors := by
  intro ts
  induction ts with
  | nil =>
    intro assignErr s i _ _ hidx hi
    refine ⟨?_, by simp [rrCalls], by simp, rfl, rfl⟩
    simpa [Nat.mod_eq_of_lt hi] using hidx
  | cons t ts ih =>
    intro assignErr s i hgrp hok hidx hi
    have hres : resolveIndex (s.idx g) (eligibleAgents g agents).length = i := by
      rw [hidx]
      simp only [resolveIndex]
      rw [if_neg (by omega)]
    have hstep := processTicket_success agents assignErr tagOk now s t g
      (hgrp t (by simp)) hg0 hsup hk (hok t (by simp))
    rw [hres] at hstep
    rw [List.foldl_cons, hstep]
    have h1 := ih assignErr
      ({ s with
          idx := setIdx s.idx g ((i + 1) % (eligibleAgents g agents).length)
          assignedCalls := s.assignedCalls ++
            [(t.id, ((eligibleAgents g agents).getD i default).id)]
          activity := s.activity ++
            [mkAssignActivity t ((eligibleAgents g agents).getD i default).name g
              (tagOk t.id) now]
          attempts := s.attempts ++
            [mkAttempt t.id t.subject
              (some ((eligibleAgents g agents).getD i default).name)
              (some g) now .success none
              (if tagOk t.id then some "overnight" else none)]
          assigned := s.assigned + 1 })
      ((i + 1) % (eligibleAgents g agents).length)
      (fun t' ht' => hgrp t' (List.mem_cons_of_mem _ ht'))
      (fun t' ht' => hok t' (List.mem_cons_of_mem _ ht'))
      (by simp [setIdx])
      (Nat.mod_lt _ hk)
    refine ⟨?_, ?_, ?_, ?_, ?_⟩
    · rw [h1.1, Nat.mod_add_mod]
      simp only [List.length_cons]
      have he : i + 1 + ts.length = i + (ts.length + 1) := by omega
      rw [he]
    · rw [h1.2.1]
      simp only [rrCalls]
      simp [List.append_assoc]
    · rw [h1.2.2.1]
      show s.assigned + 1 + ts.length = s.assigned + (t :: ts).length
      simp only [List.length_cons]
      omega
    · rw [h1.2.2.2.1]
    · rw [h1.2.2.2.2]

lemma rotation_surj (k i p : Nat) (hk : 0 < k) (hi : i < k) (hp : p < k) :
    ∃ j, j < k ∧ (i + j) % k = p := by
  refine ⟨(p + k - i) % k, Nat.mod_lt _ hk, ?_⟩
  have h1 : (i + (p + k - i) % k) % k = (i + (p + k - i)) % k :=
    Nat.ModEq.add_left i (Nat.mod_modEq (p + k - i) k)
  rw [h1]
  have h2 : i + (p + k - i) = p + k := by omega
  rw [h2, Nat.add_mod_right, Nat.mod_eq_of_lt hp]

lemma rotation_inj (k i j1 j2 : Nat) (h1 : j1 < k) (h2 : j2 < k)
    (heq : (i + j1) % k = (i + j2) % k) : j1 = j2 := by
  have hm : j1 % k = j2 % k := by
    have : i + j1 ≡ i + j2 [MOD k] := heq
    exact Nat.ModEq.add_left_cancel' i this
  rwa [Nat.mod_eq_of_lt h1, Nat.mod_eq_of_lt h2] at hm

lemma mem_weekendRev_foldl (tf : Nat → Transport) :
    ∀ (l : List Ticket) (acc : Nat × List (Ticket × String)) (p : Ticket × String),
      p ∈ (l.foldl (weekendRevStep tf) acc).2 → p ∈ acc.2 ∨ p.1 ∈ l := by
  intro l
  induction l with
  | nil => intro acc p h; exact .inl h
  | cons t ts ih =>
    intro acc p h
    rw [List.foldl_cons] at h
    rcases ih _ p h with h' | h'
    · unfold weekendRevStep at h'
      split at h'
      · exact .inl h'
      · split at h'
        · exact .inl h'
        · split at h'
          · rcases List.mem_append.mp h' with h'' | h''
            · exact .inl h''
            · right
              have := List.mem_singleton.mp h''
              rw [this]
              simp
          · exact .inl h'
    · exact .inr (List.mem_cons_of_mem _ h')

/-- C5: `isWithinAssignmentWindow` is true exactly on the local
time-of-day interval [02:01, 04:00], inclusive of both ends; in
particular 02:00 is out, 02:01 in, 03:59 in, 04:00 in, 04:01 out. -/
theorem C5_assignment_window (t : LocalTime) (hm : t.minute < 60) :
    isWithinAssignmentWindow t = true ↔
      2 * 60 + 1 ≤ t.hour * 60 + t.minute ∧ t.hour * 60 + t.minute ≤ 4 * 60 := by
  unfold isWithinAssignmentWindow
  split_ifs with h1 h2 h3 <;> simp <;> omega

/-- C5 witness: 02:01 local time is inside the assignment window. -/
theorem C5_assignment_window_witness :
    isWithinAssignmentWindow ⟨3, 2, 1⟩ = true :=
  (C5_assignment_window ⟨3, 2, 1⟩ (by decide)).mpr (by decide)

/-- C10: `clearLogs` never leaves the in-memory log empty: from any prior
log state it leaves exactly one entry — an `info` entry reading
`Logs cleared by user` — and returns success `true` with that entry as
the returned logs payload. -/
theorem C10_clear_logs_single_entry (prior : List LogEntry) (nowIso : String) :
    (clearLogs prior nowIso).1 = [clearLogsEntry nowIso] ∧
    (clearLogs prior nowIso).1.length = 1 ∧
    (clearLogsEntry nowIso).type = "info" ∧
    (clearLogsEntry nowIso).message = "Logs cleared by user" ∧
    (clearLogs prior nowIso).2.success = true ∧
    (clearLogs prior nowIso).2.logs = (clearLogs prior nowIso).1 :=
  ⟨rfl, rfl, rfl, rfl, rfl, rfl⟩

/-- C9: the consolidated activity log never exceeds 10,000 entries after
an append, and appending to a log of exactly 10,000 entries drops exactly
the oldest entry, keeping the newest 10,000. -/
theorem C9_activity_log_cap (entries : List ActivityEntry) (e : ActivityEntry) :
    (addActivityEntry entries e).length ≤ 10000 ∧
    (entries.length = 10000 →
      addActivityEntry entries e = entries.tail ++ [e] ∧
      (addActivityEntry entries e).length = 10000) := by
  constructor
  · simp only [addActivityEntry]
    split
    · rename_i h
      simp only [List.length_drop]
      omega
    · rename_i h
      simp only [not_lt] at h
      omega
  · intro h10
    cases entries with
    | nil => simp at h10
    | cons x xs =>
      have hlen : ((x :: xs) ++ [e]).length = 10001 := by
        simp only [List.length_append, List.length_singleton, h10]
      constructor
      · simp only [addActivityEntry]
        rw [if_pos (by omega), hlen]
        show ((x :: xs) ++ [e]).drop 1 = (x :: xs).tail ++ [e]
        simp
      · simp only [addActivityEntry]
        rw [if_pos (by omega)]
        simp only [List.length_drop]
        omega

/-- C9 witness: appending a 10,001st entry to a full activity log keeps
exactly the newest 10,000. -/
theorem C9_activity_log_cap_witness :
    addActivityEntry
        (List.replicate 10000 (⟨1, "s", .vnull, none, none, none, none, none, false, 0⟩ : ActivityEntry))
        ⟨2, "t", .vnull, none, none, none, none, none, false, 1⟩ =
      (List.replicate 10000 (⟨1, "s", .vnull, none, none, none, none, none, false, 0⟩ : ActivityEntry)).tail ++
        [⟨2, "t", .vnull, none, none, none, none, none, false, 1⟩] :=
  ((C9_activity_log_cap _ _).2 (by rw [List.length_replicate])).1

/-- C8: the retention purge drops an assignment attempt strictly older
than 31 days before `now` and keeps one dated exactly 31 days minus one
second before `now`. -/
theorem C8_retention_purge (now : Int) (attempts : List AssignmentAttempt)
    (a : AssignmentAttempt) (t : Int) (hmem : a ∈ attempts)
    (ht : a.attempted_at = some t) :
    (t < now - 31 * 24 * 60 * 60 * 1000 → a ∉ purgeOldAssignmentAttempts now attempts) ∧
    (t = now - 31 * 24 * 60 * 60 * 1000 + 1000 → a ∈ purgeOldAssignmentAttempts now attempts) := by
  constructor
  · intro hlt hc
    rcases List.mem_filter.mp hc with ⟨-, hp⟩
    rw [ht] at hp
    simp only [decide_eq_true_eq] at hp
    omega
  · intro heq
    refine List.mem_filter.mpr ⟨hmem, ?_⟩
    rw [ht]
    simp only [decide_eq_true_eq]
    omega

/-- C8 witness: an attempt dated 31 days minus one second before `now`
(in milliseconds, `now` = 0) survives the purge. -/
theorem C8_retention_purge_witness :
    (⟨1, "s", "n", none, "g", some (-2678399000), .success, none, none⟩ : AssignmentAttempt) ∈
      purgeOldAssignmentAttempts 0
        [⟨1, "s", "n", none, "g", some (-2678399000), .success, none, none⟩] :=
  (C8_retention_purge 0 _ _ (-2678399000) (by simp) rfl).2 (by norm_num)

/-- C3: the weekend reversion only ever reverts tickets whose status is 23
("Follow-up Required") and whose group is one of the six monitored groups,
and the scheduled run's reversion phase produces zero reversions at any
timestamp outside the weekend window. -/
theorem C3_weekend_reversion_scope (tf : Nat → Transport) (allTickets : List Ticket)
    (now : LocalTime) (hnw : isWeekendTime now = false) :
    reversionPhase now tf allTickets = 0 ∧
    ∀ p ∈ (handleWeekendStatusReversion tf allTickets).2,
      p.1.status = 23 ∧ ∃ g, p.1.group_id = some g ∧ g ∈ supportedGroups := by
  constructor
  · unfold reversionPhase
    rw [hnw]
    simp
  · intro p hp
    have hmem := mem_weekendRev_foldl tf _ _ p hp
    rcases hmem with h | h
    · simp at h
    · rcases List.mem_filter.mp h with ⟨h1, h2⟩
      rcases List.mem_filter.mp h1 with ⟨-, h3⟩
      simp only [decide_eq_true_eq] at h3
      refine ⟨h3, ?_⟩
      unfold groupIsSupported at h2
      cases hg : p.1.group_id with
      | none => rw [hg] at h2; simp at h2
      | some g =>
        rw [hg] at h2
        exact ⟨g, rfl, List.elem_iff.mp h2⟩

/-- C3 witness: on a Wednesday-noon timestamp the reversion phase reverts
nothing, even with a reversion-eligible ticket present. -/
theorem C3_weekend_reversion_scope_witness :
    reversionPhase ⟨3, 12, 0⟩ (fun _ _ _ => ⟨200, none, none, ""⟩)
        [⟨1, "s", 23, some 67000578235, none⟩] = 0 :=
  (C3_weekend_reversion_scope (fun _ _ _ => ⟨200, none, none, ""⟩)
    [⟨1, "s", 23, some 67000578235, none⟩] ⟨3, 12, 0⟩ rfl).1

/-- C2 counterexample: the Status Reversion Engine's update-status call
does not retry on HTTP 429.  With a transport whose first response is a
429 and whose second is a 200, `revertTicketStatus` fails after exactly
one remote call, while the same responses fed through
`makeAPICallWithRetry` succeed on the retry. -/
theorem C2_counterexample :
    revertTicketStatus
        (fun _ a => if a = 1 then ⟨429, some 1, none, ""⟩ else ⟨200, none, none, "ok"⟩)
        "Waiting on Customer" = ⟨false, ["updateTicketStatus"]⟩ ∧
    (makeAPICallWithRetry
        (fun a => if a = 1 then ⟨429, some 1, none, ""⟩ else ⟨200, none, none, "ok"⟩)
        3).outcome = .ok ⟨200, none, none, "ok"⟩ := by
  exact ⟨rfl, rfl⟩

/-- C2 (amended): calls made through `makeAPICallWithRetry` retry on HTTP
429 — waiting the retry-after duration (default 10s) before the next
attempt — and fail only after the attempt budget (3) is exhausted; but the
Status Reversion Engine's update-status call is issued directly, exactly
once, with no retry: any response with status >= 400 (including 429) makes
`revertTicketStatus` fail immediately after that single call. -/
theorem C2_retry_wrapper_vs_reversion
    (oracle : Nat → ApiResponse) (maxRetries attempt fuel : Nat)
    (h429 : (oracle attempt).status = 429) (hlt : attempt < maxRetries)
    (oracle3 : Nat → ApiResponse) (hall : ∀ a, 1 ≤ a → a ≤ 3 → (oracle3 a).status = 429)
    (tr : Transport) (prev : String) (m : Nat)
    (hmap : statusMappingsFollowUp prev = some m)
    (hupd : 400 ≤ (tr "updateTicketStatus" 1).status) :
    retryLoop oracle maxRetries attempt (fuel + 1) =
      ⟨(retryLoop oracle maxRetries (attempt + 1) fuel).outcome,
        proactiveWait (oracle attempt) ++ [((oracle attempt).retryAfter.getD 10) * 1000] ++
          (retryLoop oracle maxRetries (attempt + 1) fuel).waits,
        (retryLoop oracle maxRetries (attempt + 1) fuel).calls + 1⟩ ∧
    ((makeAPICallWithRetry oracle3 3).outcome = .error .rateLimited ∧
      (makeAPICallWithRetry oracle3 3).calls = 3) ∧
    revertTicketStatus tr prev = ⟨false, ["updateTicketStatus"]⟩ := by
  refine ⟨?_, ?_, ?_⟩
  · simp only [retryLoop, h429, hlt]
    simp
  · have h1 := hall 1 (by omega) (by omega)
    have h2 := hall 2 (by omega) (by omega)
    have h3 := hall 3 (by omega) (by omega)
    constructor
    · simp [makeAPICallWithRetry, retryLoop, h1, h2, h3]
    · simp [makeAPICallWithRetry, retryLoop, h1, h2, h3]
  · unfold revertTicketStatus
    rw [hmap]
    simp only [if_pos hupd]

/-- C2 witness: the amended behaviour at a concrete transport whose
update-status response is a 500. -/
theorem C2_retry_wrapper_vs_reversion_witness :
    revertTicketStatus (fun _ _ => ⟨500, none, none, "boom"⟩) "Waiting on Customer" =
      ⟨false, ["updateTicketStatus"]⟩ :=
  (C2_retry_wrapper_vs_reversion
    (fun _ => ⟨429, some 7, none, ""⟩) 3 1 2 rfl (by omega)
    (fun _ => ⟨429, none, none, ""⟩) (fun _ _ _ => rfl)
    (fun _ _ => ⟨500, none, none, "boom"⟩) "Waiting on Customer" 6 rfl
    (by norm_num)).2.2

/-- C4 counterexample: a ticket whose group id is 0 — present, and not one
of the six monitored groups — is recorded with the reason
`Ticket has no group assigned` rather than the unsupported-group reason,
because the JS falsiness test `!ticketGroupId` treats the id 0 as missing. -/
theorem C4_counterexample :
    ((some 0 : Option Nat) ≠ none ∧ (0 : Nat) ∉ supportedGroups) ∧
    (processTicket [] (fun _ => none) (fun _ => false) 0 (initEngineState fun _ => none)
        ⟨7, "s", 2, some 0, none⟩).attempts =
      [mkAttempt 7 "s" none (some 0) 0 .failed (some "Ticket has no group assigned") none] ∧
    "Ticket has no group assigned" ≠ "Unsupported group for auto-assignment" := by
  refine ⟨⟨by simp, by decide⟩, rfl, by decide⟩

/-- C4 (amended): an item with a missing group id — or the falsy group id
0, which the code treats as missing — or any group id outside the six
monitored groups, never triggers a remote assignment call, leaves every
group's rotation index untouched, and records exactly one Failed attempt:
with reason `Ticket has no group assigned` when the group id is missing or
0, and `Unsupported group for auto-assignment` otherwise. -/
theorem C4_out_of_policy_items (agents : List Agent) (assignErr : Nat → Option String)
    (tagOk : Nat → Bool) (now : Int) (s : EngineState) (t : Ticket)
    (h : t.group_id = none ∨ ∃ g, t.group_id = some g ∧ g ∉ supportedGroups) :
    (processTicket agents assignErr tagOk now s t).assignedCalls = s.assignedCalls ∧
    (processTicket agents assignErr tagOk now s t).idx = s.idx ∧
    (processTicket agents assignErr tagOk now s t).skipped = s.skipped + 1 ∧
    (processTicket agents assignErr tagOk now s t).assigned = s.assigned ∧
    (processTicket agents assignErr tagOk now s t).errors = s.errors ∧
    (processTicket agents assignErr tagOk now s t).attempts = s.attempts ++
      [mkAttempt t.id t.subject none t.group_id now .failed
        (some (if t.group_id = none ∨ t.group_id = some 0
               then "Ticket has no group assigned"
               else "Unsupported group for auto-assignment")) none] := by
  by_cases hf : t.group_id = none ∨ t.group_id = some 0
  · unfold processTicket
    rw [if_pos hf, if_pos hf]
    exact ⟨rfl, rfl, rfl, rfl, rfl, rfl⟩
  · rcases h with h | ⟨g, hg, hns⟩
    · exact absurd (Or.inl h) hf
    · have hg0 : g ≠ 0 := by
        intro h0
        exact hf (Or.inr (by rw [hg, h0]))
      have hcont : ¬ (supportedGroups.contains g = true) := by
        intro hc
        exact hns (List.elem_iff.mp hc)
      simp [processTicket, hg, hg0, hns, hcont]

/-- C4 witness: a ticket in the unmonitored group 99 is skipped with the
unsupported-group reason and no index mutation. -/
theorem C4_out_of_policy_items_witness :
    (processTicket [] (fun _ => none) (fun _ => false) 0 (initEngineState fun _ => none)
        ⟨8, "x", 2, some 99, none⟩).attempts =
      [mkAttempt 8 "x" none (some 99) 0 .failed
        (some "Unsupported group for auto-assignment") none] := by
  have h := C4_out_of_policy_items [] (fun _ => none) (fun _ => false) 0
    (initEngineState fun _ => none) ⟨8, "x", 2, some 99, none⟩
    (Or.inr ⟨99, rfl, by decide⟩)
  have h6 := h.2.2.2.2.2
  simpa using h6

/-- C6: when the remote assignment call for an item fails, a Failed
attempt carrying the error detail is recorded and the group's rotation
index is still advanced by one modulo the eligible-handler count — the
failed slot is consumed, not retried. -/
theorem C6_failure_advances_rotation (agents : List Agent)
    (assignErr : Nat → Option String) (tagOk : Nat → Bool) (now : Int)
    (s : EngineState) (t : Ticket) (g : Nat) (msg : String)
    (hg : t.group_id = some g) (hg0 : g ≠ 0) (hsup : g ∈ supportedGroups)
    (hk : 0 < (eligibleAgents g agents).length)
    (herr : assignErr t.id = some msg) :
    (processTicket agents assignErr tagOk now s t).attempts = s.attempts ++
      [mkAttempt t.id t.subject
        (some ((eligibleAgents g agents).getD
          (resolveIndex (s.idx g) (eligibleAgents g agents).length) default).name)
        (some g) now .failed (some msg) none] ∧
    (processTicket agents assignErr tagOk now s t).idx g =
      some ((resolveIndex (s.idx g) (eligibleAgents g agents).length + 1) %
        (eligibleAgents g agents).length) ∧
    (processTicket agents assignErr tagOk now s t).assignedCalls = s.assignedCalls ++
      [(t.id, ((eligibleAgents g agents).getD
        (resolveIndex (s.idx g) (eligibleAgents g agents).length) default).id)] ∧
    (processTicket agents assignErr tagOk now s t).errors = s.errors + 1 ∧
    (processTicket agents assignErr tagOk now s t).assigned = s.assigned ∧
    (processTicket agents assignErr tagOk now s t).skipped = s.skipped := by
  have hcont : supportedGroups.contains g = true := List.elem_iff.mpr hsup
  have hne : ¬ ((eligibleAgents g agents).length = 0) := by omega
  simp only [processTicket, hg, herr, hcont]
  rw [if_neg (by simp [hg0]), if_neg (by simp), if_neg hne]
  exact ⟨rfl, by simp [setIdx], rfl, rfl, rfl, rfl⟩

/-- C6 witness: a failing assignment call for a Triage ticket records the
error and advances the Triage rotation index from 0 to 1 (mod 2). -/
theorem C6_failure_advances_rotation_witness :
    (processTicket rrDemoAgents (fun _ => some "boom") (fun _ => false) 0
        (initEngineState fun _ => none) ⟨10, "t1", 2, some 67000578235, none⟩).idx
      67000578235 = some 1 := by
  have h := C6_failure_advances_rotation rrDemoAgents (fun _ => some "boom")
    (fun _ => false) 0 (initEngineState fun _ => none)
    ⟨10, "t1", 2, some 67000578235, none⟩ 67000578235 "boom" rfl (by decide)
    (by decide) (by decide) rfl
  simpa using h.2.1

/-- C1: round-robin full-cycle fairness.  For a monitored group `g` with
`k` eligible handlers, a starting rotation index `i < k`, and `k`
assignment-eligible tickets of that group with every remote assignment
call succeeding, `assignTicketsInRoundRobin` issues exactly `k`
assignment calls, the `j`-th ticket going to the eligible handler at
position `(i + j) % k` — each eligible position being used exactly once —
and the group's rotation index ends back at `i`. -/
theorem C1_round_robin_full_cycle (agents : List Agent) (tagOk : Nat → Bool) (now : Int)
    (assignErr : Nat → Option String) (idx0 : Nat → Option Nat)
    (g : Nat) (ts : List Ticket) (i : Nat)
    (hsup : g ∈ supportedGroups)
    (hk : 0 < (eligibleAgents g agents).length)
    (hlen : ts.length = (eligibleAgents g agents).length)
    (hi : i < (eligibleAgents g agents).length)
    (hidx : idx0 g = some i)
    (hgrp : ∀ t ∈ ts, t.group_id = some g)
    (helig : ∀ t ∈ ts, t.responder_id = none ∧ (t.status = 2 ∨ t.status = 29))
    (hok : ∀ t ∈ ts, assignErr t.id = none) :
    (assignTicketsInRoundRobin ts agents assignErr tagOk now idx0).idx g = some i ∧
    (assignTicketsInRoundRobin ts agents assignErr tagOk now idx0).assigned =
      (eligibleAgents g agents).length ∧
    (assignTicketsInRoundRobin ts agents assignErr tagOk now idx0).skipped = 0 ∧
    (assignTicketsInRoundRobin ts agents assignErr tagOk now idx0).errors = 0 ∧
    (assignTicketsInRoundRobin ts agents assignErr tagOk now idx0).assignedCalls.length =
      (eligibleAgents g agents).length ∧
    (∀ j, j < (eligibleAgents g agents).length →
      (assignTicketsInRoundRobin ts agents assignErr tagOk now idx0).assignedCalls.getD j (0, 0) =
        ((ts.getD j default).id,
          ((eligibleAgents g agents).getD ((i + j) % (eligibleAgents g agents).length) default).id)) ∧
    (∀ p, p < (eligibleAgents g agents).length →
      ∃ j, j < (eligibleAgents g agents).length ∧
        (i + j) % (eligibleAgents g agents).length = p ∧
        ∀ j', j' < (eligibleAgents g agents).length →
          (i + j') % (eligibleAgents g agents).length = p → j' = j) := by
  have hg0 : g ≠ 0 := by
    intro h0
    rw [h0] at hsup
    revert hsup
    decide
  have hrun := runRoundRobin_all_success agents tagOk now g hg0 hsup hk ts assignErr
    (initEngineState idx0) i hgrp hok hidx hi
  unfold assignTicketsInRoundRobin
  refine ⟨?_, ?_, ?_, ?_, ?_, ?_, ?_⟩
  · rw [hrun.1, hlen, Nat.add_mod_right, Nat.mod_eq_of_lt hi]
  · rw [hrun.2.2.1]
    simpa [initEngineState] using hlen
  · exact hrun.2.2.2.1
  · exact hrun.2.2.2.2
  · rw [hrun.2.1]
    simpa [initEngineState, rrCalls_length] using hlen
  · intro j hj
    rw [hrun.2.1]
    have := rrCalls_getD (eligibleAgents g agents) (eligibleAgents g agents).length hk
      ts i j hi (by omega)
    simpa using this
  · intro p hp
    obtain ⟨j, hjk, hjp⟩ :=
      rotation_surj (eligibleAgents g agents).length i p hk hi hp
    exact ⟨j, hjk, hjp, fun j' hj' hj'p =>
      rotation_inj (eligibleAgents g agents).length i j' j hj' hjk (hj'p.trans hjp.symm)⟩

/-- C1 witness: with the Triage group's two available handlers, rotation
index starting at 1, and two eligible tickets, Bob then Alice each get
exactly one ticket and the index returns to 1. -/
theorem C1_round_robin_full_cycle_witness :
    (assignTicketsInRoundRobin rrDemoTickets rrDemoAgents (fun _ => none) (fun _ => true)
        0 rrDemoIdx0).idx 67000578235 = some 1 ∧
    (assignTicketsInRoundRobin rrDemoTickets rrDemoAgents (fun _ => none) (fun _ => true)
        0 rrDemoIdx0).assigned = 2 ∧
    (assignTicketsInRoundRobin rrDemoTickets rrDemoAgents (fun _ => none) (fun _ => true)
        0 rrDemoIdx0).assignedCalls.getD 0 (0, 0) = (10, 2) ∧
    (assignTicketsInRoundRobin rrDemoTickets rrDemoAgents (fun _ => none) (fun _ => true)
        0 rrDemoIdx0).assignedCalls.getD 1 (0, 0) = (11, 1) := by
  have h := C1_round_robin_full_cycle rrDemoAgents (fun _ => true) 0 (fun _ => none)
    rrDemoIdx0 67000578235 rrDemoTickets 1 (by decide) (by decide) (by decide) (by decide)
    rfl (by decide) (by decide) (fun _ _ => rfl)
  refine ⟨h.1, by simpa using h.2.1, ?_, ?_⟩
  · have := h.2.2.2.2.2.1 0 (by decide)
    simpa using this
  · have := h.2.2.2.2.2.1 1 (by decide)
    simpa using this

/-- C7 counterexample: the directory builder silently returns a partial
handler list when an agent page fails.  With page 1 returning a full page
of 30 agents and page 2 failing, `getActiveAgents` succeeds with exactly
those 30 agents instead of raising. -/
theorem C7_counterexample :
    c7Tr.agentPages 2 = .error "network failure" ∧
    getActiveAgents c7Tr 50 =
      .ok ((List.range 30).map (fun n => ⟨n + 1, "A", some true, []⟩)) ∧
    ((List.range 30).map (fun n : Nat => (⟨n + 1, "A", some true, []⟩ : Agent))).length = 30 := by
  refine ⟨rfl, ?_, by simp⟩
  rfl

/-- C7 (amended): the directory builder raises only on a group-membership
fetch failure.  A failing agents page silently stops the pagination at
that page (the failing page contributes nothing), and whenever all six
group fetches succeed `getActiveAgents` returns successfully — even if the
agent pagination was cut short — so a partial handler list can be returned
without an error. -/
theorem C7_directory_partial_on_page_failure
    (pages : Nat → Except String (List Agent)) (fuel page : Nat) (e : String)
    (hp : pages page = .error e)
    (tr : DirectoryTransport) (fuel2 : Nat)
    (hgroups : ∀ j, j < 6 → ∃ grp, tr.groupFetch j = .ok grp)
    (tr2 : DirectoryTransport) (fuel3 : Nat) (e2 : String)
    (hg2 : tr2.groupFetch 0 = .error e2) :
    fetchAgentPages pages (fuel + 1) page = [] ∧
    (∃ l, getActiveAgents tr fuel2 = .ok l) ∧
    getActiveAgents tr2 fuel3 = .error e2 := by
  refine ⟨?_, ?_, ?_⟩
  · unfold fetchAgentPages
    rw [hp]
  · obtain ⟨g0, h0⟩ := hgroups 0 (by omega)
    obtain ⟨g1, h1⟩ := hgroups 1 (by omega)
    obtain ⟨g2, h2⟩ := hgroups 2 (by omega)
    obtain ⟨g3, h3⟩ := hgroups 3 (by omega)
    obtain ⟨g4, h4⟩ := hgroups 4 (by omega)
    obtain ⟨g5, h5⟩ := hgroups 5 (by omega)
    refine ⟨(fetchAgentPages tr.agentPages fuel2 1).map
      (enrichAgent tr.agentDetail (buildAgentGroupMap [g0, g1, g2, g3, g4, g5])), ?_⟩
    unfold getActiveAgents
    rw [h0, h1, h2, h3, h4, h5]
    rfl
  · unfold getActiveAgents
    rw [hg2]
    rfl

/-- C7 witness: a transport whose first group fetch fails makes
`getActiveAgents` raise that error. -/
theorem C7_directory_partial_on_page_failure_witness :
    getActiveAgents ⟨fun _ => .ok [], fun _ => .error "group down", fun _ => .ok true⟩ 3 =
      .error "group down" :=
  (C7_directory_partial_on_page_failure (fun _ => .error "x") 0 1 "x" rfl
    c7Tr 50 (fun j _ => ⟨⟨67000578161 + j, []⟩, rfl⟩)
    ⟨fun _ => .ok [], fun _ => .error "group down", fun _ => .ok true⟩ 3 "group down"
    rfl).2.2
